import Mathlib

/-!
Verification development for a small repository consisting of a React + Vite
frontend scaffold wired to Clerk authentication components
(frontend/src/App.jsx and the render entry point main.jsx) and a standalone
SQL migration that adds a pgvector embedding column and an HNSW cosine index
to the relation service_search_view.

The frontend is embedded as a virtual-DOM tree builder: each JSX element
becomes a node, component usages become nodes carrying their props, and the
counter's click handler is carried as the function the source passes to
setCount. The SQL migration is embedded as a list of DDL statements with an
executable semantics over a schema value (extensions, tables with columns,
indexes), where each IF NOT EXISTS guard becomes the corresponding test.
-/

/-- A virtual-DOM node: a host element with tag, attributes and children; a
text node; an external component usage with its props; or the counter button
carrying the click handler passed to setCount in the source. -/
inductive VNode where
  | el (tag : String) (attrs : List (String × String)) (children : List VNode)
  | text (s : String)
  | comp (name : String) (attrs : List (String × String))
  | button (onClick : Nat → Nat) (children : List VNode)

/-- Children of a node (empty for text and component leaves). -/
def childrenOf : VNode → List VNode
  | VNode.el _ _ cs => cs
  | VNode.button _ cs => cs
  | _ => []

/-- Modelled from the spec: the Clerk SignedOut component is an external
gate that renders its children exactly when the externally supplied
signed-in signal is false. -/
def SignedOutGate (signedIn : Bool) (children : List VNode) : List VNode :=
  if signedIn then [] else children

/-- Modelled from the spec: the Clerk SignedIn component is an external
gate that renders its children exactly when the externally supplied
signed-in signal is true. -/
def SignedInGate (signedIn : Bool) (children : List VNode) : List VNode :=
  if signedIn then children else []

/-- The signed-out subtree of the header in App.jsx: SignInButton and
SignUpButton, both with mode "modal". -/
def signedOutChildren : List VNode :=
  [VNode.comp "SignInButton" [("mode", "modal")],
   VNode.comp "SignUpButton" [("mode", "modal")]]

/-- The signed-in subtree of the header in App.jsx: UserButton and the
"Signed in" span. -/
def signedInChildren : List VNode :=
  [VNode.comp "UserButton" [],
   VNode.el "span" [("marginLeft", "0.5rem")] [VNode.text "✅ Signed in"]]

/-- The header element of App.jsx: its rendered children are the signed-out
subtree gated by SignedOut followed by the signed-in subtree gated by
SignedIn. -/
def headerView (signedIn : Bool) : VNode :=
  VNode.el "header" [("display", "flex"), ("gap", "1rem"), ("alignItems", "center")]
    (SignedOutGate signedIn signedOutChildren ++ SignedInGate signedIn signedInChildren)

/-- The functional update the source passes to setCount on click:
(count) => count + 1. -/
def clickUpdate : Nat → Nat := fun count => count + 1

/-- The div with the Vite and React logo links in App.jsx. -/
def logosView : VNode :=
  VNode.el "div" [] [
    VNode.el "a" [("href", "https://vite.dev"), ("target", "_blank")]
      [VNode.el "img" [("src", "viteLogo"), ("className", "logo"), ("alt", "Vite logo")] []],
    VNode.el "a" [("href", "https://react.dev"), ("target", "_blank")]
      [VNode.el "img" [("src", "reactLogo"), ("className", "logo react"), ("alt", "React logo")] []]]

/-- The card div of App.jsx: the counter button (whose label interpolates the
current count and whose onClick applies clickUpdate) and the HMR hint. -/
def cardView (count : Nat) : VNode :=
  VNode.el "div" [("className", "card")] [
    VNode.button clickUpdate [VNode.text ("count is " ++ toString count)],
    VNode.el "p" [] [VNode.text "Edit ",
                     VNode.el "code" [] [VNode.text "src/App.jsx"],
                     VNode.text " and save to test HMR"]]

/-- The fragment returned by App in App.jsx, as a function of the externally
supplied signed-in signal and the local counter state. -/
def AppView (signedIn : Bool) (count : Nat) : VNode :=
  VNode.el "fragment" [] [
    headerView signedIn,
    logosView,
    VNode.el "h1" [] [VNode.text "Vite + React + Clerk"],
    cardView count,
    VNode.el "p" [("className", "read-the-docs")]
      [VNode.text "Click on the Vite and React logos to learn more"]]

/-- Counter state after n activations of the button: useState(0) initialises
it to 0 and each activation applies the functional update clickUpdate. -/
def countAfterClicks : Nat → Nat
  | 0 => 0
  | n + 1 => clickUpdate (countAfterClicks n)

/-- The onClick handler of the counter button inside the rendered App tree
(the card is the fourth child of the fragment, the button its first child). -/
def appClickHandler (v : VNode) : Option (Nat → Nat) :=
  match (childrenOf v).get? 3 with
  | some (VNode.el _ _ cs) =>
    match cs.get? 0 with
    | some (VNode.button f _) => some f
    | _ => none
  | _ => none

/-- The label displayed on the counter button inside the rendered App tree. -/
def appButtonLabel (v : VNode) : Option String :=
  match (childrenOf v).get? 3 with
  | some (VNode.el _ _ cs) =>
    match cs.get? 0 with
    | some (VNode.button _ [VNode.text l]) => some l
    | _ => none
  | _ => none

/-- The props the render entry point passes to ClerkProvider:
publishableKey={CLERK_PUBLISHABLE_KEY} and afterSignOutUrl="/". The key value
is imported from ./config and is treated as an arbitrary string. -/
def clerkProviderConfig (key : String) : List (String × String) :=
  [("publishableKey", key), ("afterSignOutUrl", "/")]

/-- The tree mounted by the render entry point: StrictMode wrapping
ClerkProvider (with its props) wrapping App. -/
def rootMount (key : String) (signedIn : Bool) (count : Nat) : VNode :=
  VNode.el "StrictMode" []
    [VNode.el "ClerkProvider" (clerkProviderConfig key) [AppView signedIn count]]

/-- The configuration and children of the ClerkProvider inside the mounted
tree, when the tree has the StrictMode/ClerkProvider shape. -/
def providerSetup (v : VNode) : Option (List (String × String) × List VNode) :=
  match v with
  | VNode.el "StrictMode" _ [VNode.el "ClerkProvider" cfg cs] => some (cfg, cs)
  | _ => none

/-- Identifier and string-literal tokens of frontend/src/App.jsx, in source
order. -/
def appJsxTokens : List String :=
  ["import", "useState", "from", "react",
   "import", "reactLogo", "from", "./assets/react.svg",
   "import", "viteLogo", "from", "/vite.svg",
   "import", "./App.css",
   "import", "SignedIn", "SignedOut", "SignInButton", "SignUpButton", "UserButton",
   "from", "@clerk/clerk-react",
   "function", "App",
   "const", "count", "setCount", "useState",
   "return",
   "header", "style", "display", "flex", "gap", "1rem", "alignItems", "center",
   "SignedOut", "SignInButton", "mode", "modal", "SignUpButton", "mode", "modal",
   "SignedIn", "UserButton", "span", "style", "marginLeft", "0.5rem", "✅ Signed in",
   "div", "a", "href", "https://vite.dev", "target", "_blank",
   "img", "src", "viteLogo", "className", "logo", "alt", "Vite logo",
   "a", "href", "https://react.dev", "target", "_blank",
   "img", "src", "reactLogo", "className", "logo react", "alt", "React logo",
   "h1", "Vite + React + Clerk",
   "div", "className", "card",
   "button", "onClick", "setCount", "count", "count", "count is ", "count",
   "p", "Edit ", "code", "src/App.jsx", " and save to test HMR",
   "p", "className", "read-the-docs",
   "Click on the Vite and React logos to learn more",
   "export", "default", "App"]

/-- Identifier and string-literal tokens of the render entry point
(main.jsx), in source order. -/
def mainJsxTokens : List String :=
  ["import", "StrictMode", "from", "react",
   "import", "createRoot", "from", "react-dom/client",
   "import", "./index.css",
   "import", "App", "from", "./App.jsx",
   "import", "ClerkProvider", "from", "@clerk/clerk-react",
   "import", "CLERK_PUBLISHABLE_KEY", "from", "./config",
   "createRoot", "document", "getElementById", "root", "render",
   "StrictMode", "ClerkProvider", "publishableKey", "CLERK_PUBLISHABLE_KEY",
   "afterSignOutUrl", "/", "App"]

/-- A column type in the migrated schema: the pgvector type with its
dimension, or any other SQL type kept abstract by name. -/
inductive ColType where
  | vector (dim : Nat)
  | other (sqlName : String)
deriving DecidableEq, Repr

/-- A table column: name, type, and nullability (ADD COLUMN without NOT NULL
yields a nullable column). -/
structure Column where
  name : String
  type : ColType
  nullable : Bool
deriving DecidableEq, Repr

/-- An index: name, table, access method, indexed column and operator class
as written in CREATE INDEX ... USING method (column ops). -/
structure Index where
  name : String
  table : String
  method : String
  column : String
  ops : String
deriving DecidableEq, Repr

/-- A database schema: installed extensions, tables with their columns, and
indexes. -/
structure Schema where
  extensions : List String
  tables : List (String × List Column)
  indexes : List Index
deriving DecidableEq, Repr

/-- Look up the columns of a table by name (first match). -/
def lookupCols : List (String × List Column) → String → Option (List Column)
  | [], _ => none
  | (k, v) :: rest, t => if k = t then some v else lookupCols rest t

/-- Replace the columns of the first table with the given name. -/
def setCols : List (String × List Column) → String → List Column → List (String × List Column)
  | [], _, _ => []
  | (k, v) :: rest, t, cols => if k = t then (k, cols) :: rest else (k, v) :: setCols rest t cols

/-- The DDL statements appearing in the migration file: CREATE EXTENSION IF
NOT EXISTS, ALTER TABLE ... ADD COLUMN IF NOT EXISTS, and CREATE INDEX IF NOT
EXISTS. -/
inductive Stmt where
  | createExtensionIfNotExists (ext : String)
  | addColumnIfNotExists (table : String) (col : Column)
  | createIndexIfNotExists (idx : Index)
deriving DecidableEq, Repr

/-- Execute one DDL statement. The IF NOT EXISTS guards make an
already-present extension, column or index a no-op; ALTER TABLE and CREATE
INDEX still fail when the target relation does not exist. -/
def execStmt (s : Schema) : Stmt → Except String Schema
  | Stmt.createExtensionIfNotExists e =>
      if e ∈ s.extensions then Except.ok s
      else Except.ok { s with extensions := e :: s.extensions }
  | Stmt.addColumnIfNotExists t c =>
      match lookupCols s.tables t with
      | none => Except.error ("relation " ++ t ++ " does not exist")
      | some cols =>
          if c.name ∈ cols.map Column.name then Except.ok s
          else Except.ok { s with tables := setCols s.tables t (cols ++ [c]) }
  | Stmt.createIndexIfNotExists idx =>
      if idx.name ∈ s.indexes.map Index.name then Except.ok s
      else
        match lookupCols s.tables idx.table with
        | none => Except.error ("relation " ++ idx.table ++ " does not exist")
        | some _ => Except.ok { s with indexes := s.indexes ++ [idx] }

/-- Execute a list of DDL statements in order, stopping at the first error. -/
def execStmts (s : Schema) : List Stmt → Except String Schema
  | [] => Except.ok s
  | st :: rest =>
      match execStmt s st with
      | Except.error e => Except.error e
      | Except.ok s' => execStmts s' rest

/-- The embedding column added by the migration: vector(1536), nullable. -/
def embeddingColumn : Column :=
  { name := "embedding", type := ColType.vector 1536, nullable := true }

/-- The index created by the migration: idx_embedding_cosine ON
service_search_view USING hnsw (embedding vector_cosine_ops). -/
def cosineIndex : Index :=
  { name := "idx_embedding_cosine", table := "service_search_view",
    method := "hnsw", column := "embedding", ops := "vector_cosine_ops" }

/-- The migration file's statements, in order. -/
def migration : List Stmt :=
  [Stmt.createExtensionIfNotExists "vector",
   Stmt.addColumnIfNotExists "service_search_view" embeddingColumn,
   Stmt.createIndexIfNotExists cosineIndex]

/-- Run the whole migration against a schema. -/
def runMigration (s : Schema) : Except String Schema :=
  execStmts s migration

/-- Run the whole migration n times, stopping at the first error. -/
def runMigrationN : Nat → Schema → Except String Schema
  | 0, s => Except.ok s
  | n + 1, s =>
      match runMigration s with
      | Except.error e => Except.error e
      | Except.ok s' => runMigrationN n s'

/-- The schema facts the migration establishes: the vector extension is
installed, service_search_view has a column named embedding, and the index
idx_embedding_cosine exists. -/
def migrated (s : Schema) : Prop :=
  "vector" ∈ s.extensions ∧
  (∃ cols, lookupCols s.tables "service_search_view" = some cols ∧
    "embedding" ∈ cols.map Column.name) ∧
  "idx_embedding_cosine" ∈ s.indexes.map Index.name

/-- A value stored in a column: SQL NULL or a populated vector of numeric
components. -/
inductive Value where
  | null
  | vec (elems : List Int)
deriving DecidableEq, Repr

/-- Whether a value is accepted by a column: NULL requires nullability, and a
populated vector must have exactly the dimension of the column's vector
type. -/
def columnAccepts (c : Column) (v : Value) : Bool :=
  match v with
  | Value.null => c.nullable
  | Value.vec xs =>
      match c.type with
      | ColType.vector n => xs.length == n
      | ColType.other _ => false

/-- A minimal schema in which the relation service_search_view exists, used
to instantiate the migration theorems. -/
def searchSchema : Schema :=
  { extensions := [], tables := [("service_search_view", [])], indexes := [] }

theorem lookupCols_setCols (ts : List (String × List Column)) (t : String)
    (cols cols' : List Column) (h : lookupCols ts t = some cols) :
    lookupCols (setCols ts t cols') t = some cols' := by
  induction ts with
  | nil => simp [lookupCols] at h
  | cons p rest ih =>
    obtain ⟨k, v⟩ := p
    by_cases hk : k = t
    · simp [lookupCols, setCols, hk]
    · simp only [lookupCols, setCols, if_neg hk] at h ⊢
      exact ih h

theorem execExt (s : Schema) (e : String) :
    ∃ s1, execStmt s (Stmt.createExtensionIfNotExists e) = Except.ok s1 ∧
      s1.tables = s.tables ∧ s1.indexes = s.indexes ∧ e ∈ s1.extensions := by
  by_cases h : e ∈ s.extensions
  · exact ⟨s, by simp [execStmt, h], rfl, rfl, h⟩
  · exact ⟨{ s with extensions := e :: s.extensions }, by simp [execStmt, h],
      rfl, rfl, List.mem_cons_self e s.extensions⟩

theorem execAddCol (s : Schema) (t : String) (c : Column) (cols : List Column)
    (h : lookupCols s.tables t = some cols) :
    ∃ s2 cols2, execStmt s (Stmt.addColumnIfNotExists t c) = Except.ok s2 ∧
      lookupCols s2.tables t = some cols2 ∧
      c.name ∈ cols2.map Column.name ∧
      (c.name ∉ cols.map Column.name → c ∈ cols2) ∧
      s2.extensions = s.extensions ∧ s2.indexes = s.indexes := by
  by_cases hm : c.name ∈ cols.map Column.name
  · exact ⟨s, cols, by simp [execStmt, h, hm], h, hm, fun hn => absurd hm hn, rfl, rfl⟩
  · refine ⟨{ s with tables := setCols s.tables t (cols ++ [c]) }, cols ++ [c],
      by simp [execStmt, h, hm], ?_, ?_, ?_, rfl, rfl⟩
    · exact lookupCols_setCols s.tables t cols (cols ++ [c]) h
    · simp
    · intro _
      simp

theorem execIdx (s : Schema) (idx : Index) (cols : List Column)
    (h : lookupCols s.tables idx.table = some cols) :
    ∃ s3, execStmt s (Stmt.createIndexIfNotExists idx) = Except.ok s3 ∧
      s3.tables = s.tables ∧ s3.extensions = s.extensions ∧
      idx.name ∈ s3.indexes.map Index.name ∧
      (idx.name ∉ s.indexes.map Index.name → idx ∈ s3.indexes) := by
  by_cases hm : idx.name ∈ s.indexes.map Index.name
  · exact ⟨s, by simp [execStmt, hm], rfl, rfl, hm, fun hn => absurd hm hn⟩
  · refine ⟨{ s with indexes := s.indexes ++ [idx] },
      by simp [execStmt, hm, h], rfl, rfl, ?_, ?_⟩
    · simp
    · intro _
      simp

theorem runMigration_ok (s : Schema) (cols : List Column)
    (hcols : lookupCols s.tables "service_search_view" = some cols) :
    ∃ s' cols', runMigration s = Except.ok s' ∧ migrated s' ∧
      lookupCols s'.tables "service_search_view" = some cols' ∧
      ("embedding" ∉ cols.map Column.name → embeddingColumn ∈ cols') ∧
      ("idx_embedding_cosine" ∉ s.indexes.map Index.name → cosineIndex ∈ s'.indexes) := by
  obtain ⟨s1, e1, ht1, hi1, hx1⟩ := execExt s "vector"
  have hc1 : lookupCols s1.tables "service_search_view" = some cols := by
    rw [ht1]; exact hcols
  obtain ⟨s2, cols2, e2, hc2, hn2, hmem2, hx2, hi2⟩ :=
    execAddCol s1 "service_search_view" embeddingColumn cols hc1
  obtain ⟨s3, e3, ht3, hx3, hn3, hmem3⟩ := execIdx s2 cosineIndex cols2 hc2
  refine ⟨s3, cols2, ?_, ?_, ?_, ?_, ?_⟩
  · simp [runMigration, migration, execStmts, e1, e2, e3]
  · refine ⟨by rw [hx3, hx2]; exact hx1, ⟨cols2, by rw [ht3]; exact hc2, hn2⟩, hn3⟩
  · rw [ht3]; exact hc2
  · exact hmem2
  · intro hidx
    refine hmem3 ?_
    rw [hi2, hi1]
    exact hidx

theorem runMigration_fixed (s : Schema) (h : migrated s) :
    runMigration s = Except.ok s := by
  obtain ⟨hext, ⟨cols, hcols, hemb⟩, hidx⟩ := h
  simp [runMigration, migration, execStmts, execStmt, hext, hcols, hemb, hidx,
    embeddingColumn, cosineIndex]

theorem runMigrationN_fixed (s : Schema) (h : migrated s) :
    ∀ n, runMigrationN n s = Except.ok s := by
  intro n
  induction n with
  | zero => rfl
  | succ n ih => simp [runMigrationN, runMigration_fixed s h, ih]

/-- Claim C1: running the SQL migration is idempotent. Against any schema in
which the relation service_search_view exists, the migration succeeds, and
executing it any number of times (at least once) yields the same result as
executing it once, with no error on re-execution, each statement being
guarded by IF NOT EXISTS. -/
theorem migration_idempotent (s : Schema)
    (h : ∃ cols, lookupCols s.tables "service_search_view" = some cols) :
    (∃ s', runMigration s = Except.ok s') ∧
    ∀ n, runMigrationN (n + 1) s = runMigrationN 1 s := by
  obtain ⟨cols, hcols⟩ := h
  obtain ⟨s', cols', hrun, hmig, -, -, -⟩ := runMigration_ok s cols hcols
  refine ⟨⟨s', hrun⟩, ?_⟩
  intro n
  simp [runMigrationN, hrun, runMigrationN_fixed s' hmig]

/-- Witness for C1: on a concrete schema holding an empty
service_search_view table, running the migration twice equals running it
once, and the single run succeeds. -/
theorem migration_idempotent_witness :
    (∃ s', runMigration searchSchema = Except.ok s') ∧
    runMigrationN 2 searchSchema = runMigrationN 1 searchSchema :=
  ⟨(migration_idempotent searchSchema ⟨[], rfl⟩).1,
   (migration_idempotent searchSchema ⟨[], rfl⟩).2 1⟩

/-- Counterexample to C4: the SQL fragment does not consist of exactly two
statements; its statement list has length 3. -/
theorem migration_not_two_statements : ¬ (migration.length = 2) := by decide

/-- Claim C4 (amended): the SQL fragment consists of exactly three
statements: enabling the vector extension, adding the embedding column to
service_search_view, and creating the cosine index. -/
theorem migration_three_statements :
    migration.length = 3 ∧
    migration.get? 0 = some (Stmt.createExtensionIfNotExists "vector") ∧
    migration.get? 1 = some (Stmt.addColumnIfNotExists "service_search_view" embeddingColumn) ∧
    migration.get? 2 = some (Stmt.createIndexIfNotExists cosineIndex) :=
  ⟨rfl, rfl, rfl, rfl⟩

/-- Claim C6: when service_search_view exists and has no embedding column
yet, the migration adds the embedding column, which is nullable and of type
vector(1536); consequently the column accepts NULL, and every populated
vector value it accepts has exactly 1536 components. -/
theorem embedding_column_dimension (s : Schema) (cols : List Column)
    (h1 : lookupCols s.tables "service_search_view" = some cols)
    (h2 : "embedding" ∉ cols.map Column.name) :
    ∃ s' cols', runMigration s = Except.ok s' ∧
      lookupCols s'.tables "service_search_view" = some cols' ∧
      embeddingColumn ∈ cols' ∧
      embeddingColumn.nullable = true ∧
      embeddingColumn.type = ColType.vector 1536 ∧
      columnAccepts embeddingColumn Value.null = true ∧
      (∀ xs, columnAccepts embeddingColumn (Value.vec xs) = true → xs.length = 1536) := by
  obtain ⟨s', cols', hrun, -, hlook, hemb, -⟩ := runMigration_ok s cols h1
  refine ⟨s', cols', hrun, hlook, hemb h2, rfl, rfl, rfl, ?_⟩
  intro xs hx
  simpa [columnAccepts, embeddingColumn] using hx

/-- Witness for C6: instantiated on the concrete schema with an empty
service_search_view table. -/
theorem embedding_column_dimension_witness :
    ∃ s' cols', runMigration searchSchema = Except.ok s' ∧
      lookupCols s'.tables "service_search_view" = some cols' ∧
      embeddingColumn ∈ cols' ∧
      embeddingColumn.nullable = true ∧
      embeddingColumn.type = ColType.vector 1536 ∧
      columnAccepts embeddingColumn Value.null = true ∧
      (∀ xs, columnAccepts embeddingColumn (Value.vec xs) = true → xs.length = 1536) :=
  embedding_column_dimension searchSchema [] rfl (by simp)

/-- Claim C7: when service_search_view exists and no index named
idx_embedding_cosine exists yet, the migration creates that index, an HNSW
index over the embedding column of service_search_view with the
vector_cosine_ops operator class. -/
theorem cosine_index_created (s : Schema)
    (h1 : ∃ cols, lookupCols s.tables "service_search_view" = some cols)
    (h2 : "idx_embedding_cosine" ∉ s.indexes.map Index.name) :
    ∃ s', runMigration s = Except.ok s' ∧ cosineIndex ∈ s'.indexes ∧
      cosineIndex.name = "idx_embedding_cosine" ∧
      cosineIndex.method = "hnsw" ∧
      cosineIndex.table = "service_search_view" ∧
      cosineIndex.column = "embedding" ∧
      cosineIndex.ops = "vector_cosine_ops" := by
  obtain ⟨cols, hcols⟩ := h1
  obtain ⟨s', cols', hrun, -, -, -, hidx⟩ := runMigration_ok s cols hcols
  exact ⟨s', hrun, hidx h2, rfl, rfl, rfl, rfl, rfl⟩

/-- Witness for C7: instantiated on the concrete schema with an empty
service_search_view table and no indexes. -/
theorem cosine_index_created_witness :
    ∃ s', runMigration searchSchema = Except.ok s' ∧ cosineIndex ∈ s'.indexes ∧
      cosineIndex.name = "idx_embedding_cosine" ∧
      cosineIndex.method = "hnsw" ∧
      cosineIndex.table = "service_search_view" ∧
      cosineIndex.column = "embedding" ∧
      cosineIndex.ops = "vector_cosine_ops" :=
  cosine_index_created searchSchema ⟨[], rfl⟩ (by simp [searchSchema])

theorem userButton_ne_signInButton :
    VNode.comp "UserButton" [] ≠ VNode.comp "SignInButton" [("mode", "modal")] := by
  intro h
  injection h with h1 h2
  exact absurd h1 (by decide)

theorem signedChildren_ne : signedInChildren ≠ signedOutChildren := by
  intro h
  have h0 : VNode.comp "UserButton" [] = VNode.comp "SignInButton" [("mode", "modal")] := by
    have hh := congrArg List.head? h
    simp [signedInChildren, signedOutChildren] at hh
  exact userButton_ne_signInButton h0

/-- Claim C2: for every value of the externally supplied signed-in signal,
the header (the first child of App's fragment) is a function of that signal
alone, and its rendered children are the signed-out subtree exactly when the
signal is false and the signed-in subtree exactly when it is true, so
exactly one of the two auth view states is rendered. -/
theorem auth_views_exclusive (signedIn : Bool) (c₁ c₂ : Nat) :
    (childrenOf (AppView signedIn c₁)).get? 0 = some (headerView signedIn) ∧
    (childrenOf (AppView signedIn c₂)).get? 0 = some (headerView signedIn) ∧
    (childrenOf (headerView signedIn) = signedOutChildren ↔ signedIn = false) ∧
    (childrenOf (headerView signedIn) = signedInChildren ↔ signedIn = true) := by
  refine ⟨rfl, rfl, ?_, ?_⟩ <;> cases signedIn <;>
    simp [headerView, SignedOutGate, SignedInGate, childrenOf,
      signedChildren_ne, Ne.symm signedChildren_ne]

theorem countAfterClicks_eq (n : Nat) : countAfterClicks n = n := by
  induction n with
  | zero => rfl
  | succ n ih => simp [countAfterClicks, clickUpdate, ih]

/-- Claim C3: the counter starts at 0, and after n activations of the button
the counter state is n and the button label displayed by App interpolates
exactly that value. -/
theorem counter_displays_activation_count (signedIn : Bool) (n : Nat) :
    countAfterClicks 0 = 0 ∧ countAfterClicks n = n ∧
    appButtonLabel (AppView signedIn (countAfterClicks n)) =
      some ("count is " ++ toString n) := by
  refine ⟨rfl, countAfterClicks_eq n, ?_⟩
  rw [countAfterClicks_eq n]
  rfl

/-- Claim C9: the counter button's onClick handler in the rendered App tree
is the functional update fun count => count + 1, so each activation changes
the counter by exactly +1 and the counter is strictly increasing across
activations. -/
theorem click_strictly_increments (signedIn : Bool) (c : Nat) :
    appClickHandler (AppView signedIn c) = some clickUpdate ∧
    (∀ k, clickUpdate k = k + 1) ∧
    (∀ m n, m < n → countAfterClicks m < countAfterClicks n) := by
  refine ⟨rfl, fun k => rfl, ?_⟩
  intro m n hmn
  rw [countAfterClicks_eq m, countAfterClicks_eq n]
  exact hmn

/-- Witness for C9: the handler of the concrete rendered tree is the
increment update, it maps 5 to 6, and two clicks leave the counter strictly
below the value after three clicks. -/
theorem click_strictly_increments_witness :
    appClickHandler (AppView false 0) = some clickUpdate ∧
    clickUpdate 5 = 5 + 1 ∧
    countAfterClicks 2 < countAfterClicks 3 :=
  ⟨(click_strictly_increments false 0).1,
   (click_strictly_increments false 0).2.1 5,
   (click_strictly_increments false 0).2.2 2 3 (by decide)⟩

/-- Claim C10: the signed-in signal influences only the header subtree: for
any two signal values and the same counter state, everything outside the
first child of App's fragment is identical, and the counter's click handler
(hence the counter state evolution) does not depend on the signal. -/
theorem signal_affects_only_header (s₁ s₂ : Bool) (c : Nat) :
    (childrenOf (AppView s₁ c)).drop 1 = (childrenOf (AppView s₂ c)).drop 1 ∧
    appClickHandler (AppView s₁ c) = appClickHandler (AppView s₂ c) ∧
    appButtonLabel (AppView s₁ c) = appButtonLabel (AppView s₂ c) :=
  ⟨rfl, rfl, rfl⟩

/-- Counterexample to C5: the render entry point does not configure the
identity provider with exactly one configuration value; for the concrete key
"pk_test_key" the ClerkProvider prop list has two entries, not one. -/
theorem provider_config_not_single :
    ¬ ((clerkProviderConfig "pk_test_key").length = 1) := by decide

/-- Claim C5 (amended): the render entry point configures ClerkProvider with
exactly two configuration values, the publishable key string under
publishableKey and the after-sign-out URL "/", and renders the App child
tree inside the provider. -/
theorem provider_config_two_values (key : String) (signedIn : Bool) (c : Nat) :
    providerSetup (rootMount key signedIn c) =
      some (clerkProviderConfig key, [AppView signedIn c]) ∧
    (clerkProviderConfig key).length = 2 ∧
    (clerkProviderConfig key).lookup "publishableKey" = some key ∧
    (clerkProviderConfig key).lookup "afterSignOutUrl" = some "/" := by
  refine ⟨rfl, rfl, ?_, ?_⟩ <;> simp [clerkProviderConfig, List.lookup]

/-- Claim C8: the relation name service_search_view referenced by the SQL
migration occurs in neither frontend source file's tokens (App.jsx and the
render entry point). -/
theorem no_migration_table_in_frontend :
    "service_search_view" ∉ appJsxTokens ∧
    "service_search_view" ∉ mainJsxTokens := by decide
